import Mathlib

/-
Verification of the chaperone supervision core: the command protocol layer
(src/chaperone/cproc/commands.py) and the simple process monitor
(src/chaperone/cproc/pt/simple.py), shallowly embedded in Lean.

The command pipeline is: a raw line is tokenized with shell-style word
splitting (Python shlex.split, posix mode), parsed against the fixed telchap
grammar (the docopt library applied to COMMAND_DOC), dispatched against the
ordered handler registry COMMANDS, and the textual result is wrapped in a
status-line envelope.  Registry side effects are recorded as an explicit
trace of RegCall values; downstream registry failures are injected through
an oracle field on the controller model.
-/

set_option maxRecDepth 8000

namespace Chaperone

/-! ### Characters used by the tokenizer (named to keep literals simple) -/

def squote : Char := Char.ofNat 39

def dquote : Char := Char.ofNat 34

def bslash : Char := Char.ofNat 92

/-- Whitespace characters of Python shlex (shlex.whitespace). -/
def shlexWhitespace : List Char := [' ', '\t', '\r', '\n']

/-! ### shlex.split (posix mode, whitespace_split) as a state machine -/

inductive ShState
  | delim
  | word
  | inSquote
  | inDquote
  | escWord
  | escDquote
deriving DecidableEq

/-- One pass of the shlex posix tokenizer: characters still to read, current
state, current token in reverse, emitted tokens in reverse. -/
def shlexRun : List Char → ShState → List Char → List String → Except String (List String)
  | [], ShState.delim, _, acc => Except.ok acc.reverse
  | [], ShState.word, cur, acc => Except.ok ((String.mk cur.reverse) :: acc).reverse
  | [], ShState.inSquote, _, _ => Except.error "No closing quotation"
  | [], ShState.inDquote, _, _ => Except.error "No closing quotation"
  | [], ShState.escWord, _, _ => Except.error "No escaped character"
  | [], ShState.escDquote, _, _ => Except.error "No escaped character"
  | c :: cs, ShState.delim, _, acc =>
    if c ∈ shlexWhitespace then shlexRun cs ShState.delim [] acc
    else if c = squote then shlexRun cs ShState.inSquote [] acc
    else if c = dquote then shlexRun cs ShState.inDquote [] acc
    else if c = bslash then shlexRun cs ShState.escWord [] acc
    else shlexRun cs ShState.word [c] acc
  | c :: cs, ShState.word, cur, acc =>
    if c ∈ shlexWhitespace then shlexRun cs ShState.delim [] (String.mk cur.reverse :: acc)
    else if c = squote then shlexRun cs ShState.inSquote cur acc
    else if c = dquote then shlexRun cs ShState.inDquote cur acc
    else if c = bslash then shlexRun cs ShState.escWord cur acc
    else shlexRun cs ShState.word (c :: cur) acc
  | c :: cs, ShState.inSquote, cur, acc =>
    if c = squote then shlexRun cs ShState.word cur acc
    else shlexRun cs ShState.inSquote (c :: cur) acc
  | c :: cs, ShState.inDquote, cur, acc =>
    if c = dquote then shlexRun cs ShState.word cur acc
    else if c = bslash then shlexRun cs ShState.escDquote cur acc
    else shlexRun cs ShState.inDquote (c :: cur) acc
  | c :: cs, ShState.escWord, cur, acc => shlexRun cs ShState.word (c :: cur) acc
  | c :: cs, ShState.escDquote, cur, acc =>
    if c = dquote ∨ c = bslash then shlexRun cs ShState.inDquote (c :: cur) acc
    else shlexRun cs ShState.inDquote (c :: bslash :: cur) acc

/-- Python shlex.split(msg): shell-style word splitting, raising ValueError
(modelled as Except.error with the message text) on unbalanced quoting. -/
def shlexSplit (s : String) : Except String (List String) :=
  shlexRun s.data ShState.delim [] []

/-! ### The telchap grammar (COMMAND_DOC) fed to docopt -/

/-- The usage section of COMMAND_DOC exactly as docopt extracts it
(printable usage, stripped); DocoptExit messages embed this text. -/
def usageText : String :=
  "Usage: telchap status\n       telchap loglevel [<level>]\n       telchap stop [--force] [--wait] [--disable] [<servname> ...]\n       telchap start [--force] [--wait] [--enable] [<servname> ...]\n       telchap reset [--force] [--wait] [<servname> ...]\n       telchap enable [<servname> ...]\n       telchap disable [<servname> ...]\n       telchap dependencies\n       telchap shutdown [<delay>]"

/-- The long options collected from the usage patterns, in first-appearance
order (docopt gathers them while parsing the pattern). -/
def longOptionNames : List String := ["--force", "--wait", "--disable", "--enable"]

/-- A token of the parsed argument vector: a recognized long option or a
positional argument. -/
inductive Tok
  | opt (name : String)
  | arg (value : String)
deriving DecidableEq, Repr

def strStarts (p s : String) : Bool := p.data.isPrefixOf s.data

/-- Split a token at the first equals sign: text before it, and whether an
equals sign was present (Python partition on the equals character). -/
def splitEqGo : List Char → List Char × Bool
  | [] => ([], false)
  | c :: cs =>
    if c = '=' then ([], true)
    else ((splitEqGo cs).1.cons c, (splitEqGo cs).2)

/-- docopt parse_long for this grammar: exact long-option match, else unique
prefix match; options here take no argument, so an equals sign is an error.
Errors carry the text of str(DocoptExit(message)): message, newline, usage. -/
def parse_long (tok : String) : Except String Tok :=
  let pr := splitEqGo tok.data
  let long := String.mk pr.1
  let hasArg := pr.2
  let exact := longOptionNames.filter (fun o => o = long)
  let similar := if exact.isEmpty then longOptionNames.filter (fun o => strStarts long o) else exact
  match similar with
  | [] => Except.error (long ++ " is not recognized\n" ++ usageText)
  | [o] =>
    if hasArg then Except.error (o ++ " must not have an argument\n" ++ usageText)
    else Except.ok (Tok.opt o)
  | _ =>
    Except.error (long ++ " is not a unique prefix: " ++ String.intercalate ", " similar
      ++ "?\n" ++ usageText)

/-- docopt parse_argv: a bare double dash turns the rest (itself included)
into positional arguments; double-dash tokens are long options; single-dash
tokens are short options (none exist in this grammar, so the first short
character is reported as not recognized); everything else is positional. -/
def parse_argv : List String → Except String (List Tok)
  | [] => Except.ok []
  | t :: rest =>
    if t = "--" then Except.ok ((t :: rest).map Tok.arg)
    else if strStarts "--" t then
      match parse_long t with
      | Except.error e => Except.error e
      | Except.ok o =>
        match parse_argv rest with
        | Except.error e => Except.error e
        | Except.ok toks => Except.ok (o :: toks)
    else if strStarts "-" t ∧ t ≠ "-" then
      Except.error ("-" ++ String.mk [t.data.getD 1 ' '] ++ " is not recognized\n" ++ usageText)
    else
      match parse_argv rest with
      | Except.error e => Except.error e
      | Except.ok toks => Except.ok (Tok.arg t :: toks)

/-- The parsed options dictionary docopt returns for COMMAND_DOC: one boolean
per verb, one boolean per long option, and the three positional leaves. -/
structure Opts where
  status : Bool := false
  loglevel : Bool := false
  stop : Bool := false
  start : Bool := false
  reset : Bool := false
  enable : Bool := false
  disable : Bool := false
  dependencies : Bool := false
  shutdown : Bool := false
  force : Bool := false
  wait : Bool := false
  enableFlag : Bool := false
  disableFlag : Bool := false
  level : Option String := none
  delay : Option String := none
  servname : List String := []
deriving DecidableEq, Repr

/-- docopt Command matching looks at the first positional argument of the
remaining tokens; options before it are skipped and kept. -/
def splitVerb : List Tok → Option (String × List Tok)
  | [] => none
  | Tok.arg v :: rest => some (v, rest)
  | Tok.opt n :: rest =>
    match splitVerb rest with
    | none => none
    | some p => some (p.1, Tok.opt n :: p.2)

/-- docopt Optional(Option o): remove the first occurrence of the option,
reporting whether it was present. -/
def removeFirstOpt (name : String) : List Tok → Bool × List Tok
  | [] => (false, [])
  | Tok.opt n :: rest =>
    if n = name then (true, rest)
    else ((removeFirstOpt name rest).1, Tok.opt n :: (removeFirstOpt name rest).2)
  | Tok.arg v :: rest =>
    ((removeFirstOpt name rest).1, Tok.arg v :: (removeFirstOpt name rest).2)

/-- docopt Optional(OneOrMore(Argument)): consume every remaining positional;
a leftover option token means the pattern leaves tokens unmatched and fails. -/
def argsOnly : List Tok → Option (List String)
  | [] => some []
  | Tok.arg v :: rest => (argsOnly rest).map (fun l => v :: l)
  | Tok.opt _ :: _ => none

/-- docopt Optional(Argument): at most one positional may remain, and nothing
else. -/
def oneOptionalArg : List Tok → Option (Option String)
  | [] => some none
  | [Tok.arg v] => some (some v)
  | _ => none

/-- Match the parsed tokens against the nine usage alternatives; the verbs
are mutually exclusive, so the alternative is selected by the first
positional argument, and the whole token list must be consumed. -/
def docoptMatch (toks : List Tok) : Option Opts :=
  match splitVerb toks with
  | none => none
  | some (verb, rest) =>
    if verb = "status" then
      if rest = [] then some { status := true } else none
    else if verb = "loglevel" then
      match oneOptionalArg rest with
      | some lv => some { loglevel := true, level := lv }
      | none => none
    else if verb = "stop" then
      let f := removeFirstOpt "--force" rest
      let w := removeFirstOpt "--wait" f.2
      let d := removeFirstOpt "--disable" w.2
      match argsOnly d.2 with
      | some names =>
        some { stop := true, force := f.1, wait := w.1, disableFlag := d.1, servname := names }
      | none => none
    else if verb = "start" then
      let f := removeFirstOpt "--force" rest
      let w := removeFirstOpt "--wait" f.2
      let e := removeFirstOpt "--enable" w.2
      match argsOnly e.2 with
      | some names =>
        some { start := true, force := f.1, wait := w.1, enableFlag := e.1, servname := names }
      | none => none
    else if verb = "reset" then
      let f := removeFirstOpt "--force" rest
      let w := removeFirstOpt "--wait" f.2
      match argsOnly w.2 with
      | some names =>
        some { reset := true, force := f.1, wait := w.1, servname := names }
      | none => none
    else if verb = "enable" then
      match argsOnly rest with
      | some names => some { enable := true, servname := names }
      | none => none
    else if verb = "disable" then
      match argsOnly rest with
      | some names => some { disable := true, servname := names }
      | none => none
    else if verb = "dependencies" then
      if rest = [] then some { dependencies := true } else none
    else if verb = "shutdown" then
      match oneOptionalArg rest with
      | some dv => some { shutdown := true, delay := dv }
      | none => none
    else none

/-- docopt(COMMAND_DOC, argv, help=False): parse the argument vector, match it
against the usage pattern; failure raises DocoptExit (a SystemExit), whose
text for a bare pattern mismatch is the usage section. -/
def docopt (argv : List String) : Except String Opts :=
  match parse_argv argv with
  | Except.error e => Except.error e
  | Except.ok toks =>
    match docoptMatch toks with
    | some o => Except.ok o
    | none => Except.error usageText

/-! ### Python float() parsing

Numeric values are modelled as exact rationals (plus infinities and nan);
the binary rounding of the host float type is abstracted away, which does not
affect parse success or failure. -/

inductive PyNum
  | q (v : ℚ)
  | inf (neg : Bool)
  | nan
deriving DecidableEq, Repr

/-- Whitespace stripped by Python float() around the literal. -/
def pyStripChars : List Char := [' ', '\t', '\n', '\r', '\x0b', '\x0c']

def stripEnds (cs : List Char) : List Char :=
  ((cs.dropWhile (fun c => c ∈ pyStripChars)).reverse.dropWhile
    (fun c => c ∈ pyStripChars)).reverse

def lowerChar (c : Char) : Char :=
  if 'A' ≤ c ∧ c ≤ 'Z' then Char.ofNat (c.toNat + 32) else c

/-- Python str.lower restricted to ASCII letters (the inputs compared against
are ASCII keywords). -/
def toLowerAscii (s : String) : String := String.mk (s.data.map lowerChar)

/-- Consume a digit run, allowing a single underscore between two digits as
Python numeric literals do; returns the value, the number of digits read and
the unconsumed rest. -/
def digitsRun : List Char → ℕ → ℕ → ℕ × ℕ × List Char
  | [], v, n => (v, n, [])
  | [c], v, n =>
    if c.isDigit then (10 * v + (c.toNat - 48), n + 1, []) else (v, n, [c])
  | c :: c2 :: cs, v, n =>
    if c.isDigit then digitsRun (c2 :: cs) (10 * v + (c.toNat - 48)) (n + 1)
    else if c = '_' ∧ c2.isDigit ∧ 0 < n then digitsRun cs (10 * v + (c2.toNat - 48)) (n + 1)
    else (v, n, c :: c2 :: cs)

def takeSign : List Char → Bool × List Char
  | '-' :: r => (true, r)
  | '+' :: r => (false, r)
  | r => (false, r)

def mkPyVal (neg : Bool) (ip fp : ℕ) (fpn : ℕ) (ex : ℤ) : PyNum :=
  let m : ℚ := ((ip * 10 ^ fpn + fp : ℕ) : ℚ)
  let v : ℚ := m * (10 : ℚ) ^ (ex - (fpn : ℤ))
  PyNum.q (if neg then -v else v)

/-- Python float(s): optional surrounding whitespace and sign, then inf,
infinity or nan (case-insensitive), or a decimal literal with optional
fraction and exponent; none when ValueError would be raised. -/
def pythonFloat (s : String) : Option PyNum :=
  let cs0 := stripEnds s.data
  let sg := takeSign cs0
  let neg := sg.1
  let cs := sg.2
  let low := String.mk (cs.map lowerChar)
  if low = "inf" ∨ low = "infinity" then some (PyNum.inf neg)
  else if low = "nan" then some PyNum.nan
  else
    let ipr := digitsRun cs 0 0
    let fpr :=
      match ipr.2.2 with
      | '.' :: r => digitsRun r 0 0
      | _ => (0, 0, ipr.2.2)
    if ipr.2.1 + fpr.2.1 = 0 then none
    else
      match fpr.2.2 with
      | [] => some (mkPyVal neg ipr.1 fpr.1 fpr.2.1 0)
      | e :: r3 =>
        if e = 'e' ∨ e = 'E' then
          let esg := takeSign r3
          let epr := digitsRun esg.2 0 0
          if epr.2.1 = 0 ∨ epr.2.2 ≠ [] then none
          else
            some (mkPyVal neg ipr.1 fpr.1 fpr.2.1
              (if esg.1 then -(epr.1 : ℤ) else (epr.1 : ℤ)))
        else none

/-- Strip a prime factor with fuel, returning the multiplicity and cofactor. -/
def stripFactor (p : ℕ) : ℕ → ℕ → ℕ × ℕ
  | 0, n => (0, n)
  | f + 1, n =>
    if n ≠ 0 ∧ 2 ≤ p ∧ n % p = 0 then
      ((stripFactor p f (n / p)).1 + 1, (stripFactor p f (n / p)).2)
    else (0, n)

def padZeros (s : String) (k : ℕ) : String :=
  String.mk (List.replicate (k - s.length) '0') ++ s

/-- Decimal rendering of a PyNum, standing in for the str() of the host float
in the shutdown confirmation message (shortest-round-trip repr and scientific
notation of the host are abstracted to plain decimal text). -/
def formatPyNum : PyNum → String
  | PyNum.inf neg => if neg then "-inf" else "inf"
  | PyNum.nan => "nan"
  | PyNum.q v =>
    let den := v.den
    let s2 := stripFactor 2 den den
    let s5 := stripFactor 5 s2.2 s2.2
    if s5.2 = 1 then
      let k := max s2.1 s5.1
      let scaled := v.num.natAbs * (10 ^ k / den)
      let sign := if v.num < 0 then "-" else ""
      let frac := if k = 0 then "0" else padZeros (toString (scaled % 10 ^ k)) k
      sign ++ toString (scaled / 10 ^ k) ++ "." ++ frac
    else toString v.num ++ "/" ++ toString v.den

/-! ### The controller / registry model and the command handlers -/

/-- Modelled from the spec: chaperone.cutil.syslog_info.PRIORITY, the syslog
priority-name table indexed by the forced log level; the module is external
to src (only logging/syslog priority mapping, excluded as a collaborator).
These are the standard syslog priority names in priority order. -/
def PRIORITY : List String :=
  ["emerg", "alert", "crit", "err", "warning", "notice", "info", "debug"]

/-- Python list indexing with negative-index wraparound; none models
IndexError. -/
def pyIndex (l : List String) (i : ℤ) : Option String :=
  if 0 ≤ i then l.get? i.toNat
  else if i.natAbs ≤ l.length then l.get? (l.length - i.natAbs)
  else none

/-- One observable call into the external service registry / controller. -/
inductive RegCall
  | start (names : List String) (force wait enable : Bool)
  | stop (names : List String) (force wait disable : Bool)
  | reset (names : List String) (force wait : Bool)
  | enable (names : List String)
  | disable (names : List String)
  | forceLogLevel (level : String)
  | callLater (delay : PyNum)
deriving DecidableEq, Repr

/-- One managed service record as seen through controller.services.values(). -/
structure Service where
  enabled : Bool

/-- The model of the TopLevelProcess controller handed to handlers.  Reads
are plain fields; regFail is an oracle injecting the exception message a
mutating registry call raises, none meaning the call succeeds. -/
structure Controller where
  version : String
  uptime : String
  services : List Service
  statusTable : String
  dependency_graph : List String
  forcedLogLevel : Option ℤ
  regFail : RegCall → Option String

/-- The command handler singletons of commands.py. -/
inductive Cmd
  | loglevelCommand
  | shutdownCommand
  | statusCommand
  | serviceStop
  | serviceStart
  | serviceReset
  | serviceEnable
  | serviceDisable
  | dependenciesCommand
deriving DecidableEq, Repr

def command_name : Cmd → String
  | Cmd.loglevelCommand => "loglevel"
  | Cmd.shutdownCommand => "shutdown"
  | Cmd.statusCommand => "status"
  | Cmd.serviceStop => "stop"
  | Cmd.serviceStart => "start"
  | Cmd.serviceReset => "reset"
  | Cmd.serviceEnable => "enable"
  | Cmd.serviceDisable => "disable"
  | Cmd.dependenciesCommand => "dependencies"

def interactive_only : Cmd → Bool
  | Cmd.statusCommand => true
  | Cmd.dependenciesCommand => true
  | _ => false

/-- opts.get(name, False) over the docopt dictionary, restricted to the verb
keys the handlers use (no handler uses the tuple form of command_name). -/
def optsGet (o : Opts) : String → Bool
  | "status" => o.status
  | "loglevel" => o.loglevel
  | "stop" => o.stop
  | "start" => o.start
  | "reset" => o.reset
  | "enable" => o.enable
  | "disable" => o.disable
  | "dependencies" => o.dependencies
  | "shutdown" => o.shutdown
  | _ => false

/-- _BaseCommand.match. -/
def cmdMatch (c : Cmd) (o : Opts) : Bool := optsGet o (command_name c)

/-- The do_exec coroutine of each handler: returns the result string or the
raised exception text, together with the trace of registry calls made. -/
def do_exec : Cmd → Bool → Opts → Controller → Except String String × List RegCall
  | Cmd.statusCommand, _, _, ctrl =>
    (Except.ok ("\nRunning:           " ++ ctrl.version
      ++ "\nUptime:            " ++ ctrl.uptime
      ++ "\nManaged processes: " ++ toString ctrl.services.length
      ++ " (" ++ toString (ctrl.services.filter (fun s => s.enabled)).length ++ " enabled)\n"
      ++ "\nServices:\n\n" ++ ctrl.statusTable ++ "\n"), [])
  | Cmd.dependenciesCommand, _, _, ctrl =>
    (Except.ok (String.intercalate "\n" ctrl.dependency_graph), [])
  | Cmd.serviceReset, interactive, opts, ctrl =>
    let wait := opts.wait && interactive
    let call := RegCall.reset opts.servname opts.force wait
    (match ctrl.regFail call with
     | some e => Except.error e
     | none => Except.ok "services reset.", [call])
  | Cmd.serviceEnable, _, opts, ctrl =>
    let call := RegCall.enable opts.servname
    (match ctrl.regFail call with
     | some e => Except.error e
     | none => Except.ok "services enabled.", [call])
  | Cmd.serviceDisable, _, opts, ctrl =>
    let call := RegCall.disable opts.servname
    (match ctrl.regFail call with
     | some e => Except.error e
     | none => Except.ok "services disabled.", [call])
  | Cmd.serviceStart, interactive, opts, ctrl =>
    let wait := opts.wait && interactive
    let call := RegCall.start opts.servname opts.force wait opts.enableFlag
    (match ctrl.regFail call with
     | some e => Except.error e
     | none => Except.ok (if wait then "services started." else "service start-up queued."),
     [call])
  | Cmd.serviceStop, interactive, opts, ctrl =>
    let wait := opts.wait && interactive
    let call := RegCall.stop opts.servname opts.force wait opts.disableFlag
    (match ctrl.regFail call with
     | some e => Except.error e
     | none => Except.ok (if wait then "services stopped." else "services stopping."),
     [call])
  | Cmd.loglevelCommand, _, opts, ctrl =>
    match opts.level with
    | none =>
      match ctrl.forcedLogLevel with
      | none => (Except.ok "Forced Logging Level: NOT SET", [])
      | some cur =>
        match pyIndex PRIORITY cur with
        | some nm => (Except.ok ("*." ++ nm), [])
        | none => (Except.ok "Forced Logging Level: UNKNOWN", [])
    | some lev0 =>
      let lev := if strStarts "*." lev0 then String.mk (lev0.data.drop 2) else lev0
      let call := RegCall.forceLogLevel lev
      (match ctrl.regFail call with
       | some e => Except.error e
       | none => Except.ok ("All logging set to include priorities >= *." ++ toLowerAscii lev),
       [call])
  | Cmd.shutdownCommand, _, opts, _ctrl =>
    match opts.delay with
    | none => (Except.ok "Shutting down now", [RegCall.callLater (PyNum.q (1 / 10))])
    | some d =>
      if toLowerAscii d = "now" then
        (Except.ok "Shutting down now", [RegCall.callLater (PyNum.q (1 / 10))])
      else
        match pythonFloat d with
        | none => (Except.ok ("Specified delay is not a valid decimal number: " ++ d), [])
        | some v =>
          (Except.ok ("Shutting down in " ++ formatPyNum v ++ " seconds"),
           [RegCall.callLater v])

/-- _BaseCommand.exec: run do_exec with the protocol session's interactive
flag and convert any raised exception into a Command error message. -/
def exec (c : Cmd) (interactive : Bool) (opts : Opts) (ctrl : Controller) :
    String × List RegCall :=
  let r := do_exec c interactive opts ctrl
  (match r.1 with
   | Except.ok res => res
   | Except.error e => "Command error: " ++ e, r.2)

/-- The registration order of COMMANDS in commands.py. -/
def COMMANDS : List Cmd :=
  [Cmd.loglevelCommand, Cmd.shutdownCommand, Cmd.statusCommand, Cmd.serviceStop,
   Cmd.serviceStart, Cmd.serviceReset, Cmd.serviceEnable, Cmd.serviceDisable,
   Cmd.dependenciesCommand]

/-- The dispatch loop of _interpret_command: first handler whose match
succeeds and whose interactive_only gate is satisfied. -/
def findCommand (interactive : Bool) (o : Opts) : Option Cmd :=
  COMMANDS.find? (fun c => cmdMatch c o && (!(interactive_only c) || interactive))

/-- The observable outcome of one _interpret_command call: the returned
envelope (none models Python returning None), the registry calls made and the
handler that executed. -/
structure IResult where
  result : Option String
  calls : List RegCall
  dispatched : Option Cmd
deriving DecidableEq, Repr

/-- CommandProtocol._interpret_command.  DocoptExit is a SystemExit, so the
except SystemExit branch (COMMAND-ERROR) catches grammar mismatches, while
the except Exception branch (EXCEPTION) catches tokenizer errors. -/
def _interpret_command (interactive : Bool) (ctrl : Controller) (msg : String) : IResult :=
  if msg = "" then { result := none, calls := [], dispatched := none }
  else
    match shlexSplit msg with
    | Except.error e =>
      { result := some ("EXCEPTION\n" ++ e), calls := [], dispatched := none }
    | Except.ok argv =>
      match docopt argv with
      | Except.error e =>
        { result := some ("COMMAND-ERROR\n" ++ e), calls := [], dispatched := none }
      | Except.ok opts =>
        match findCommand interactive opts with
        | none => { result := some ("RESULT\n" ++ "?"), calls := [], dispatched := none }
        | some c =>
          { result := some ("RESULT\n" ++ (exec c interactive opts ctrl).1),
            calls := (exec c interactive opts ctrl).2,
            dispatched := some c }

/-- What one _command_task does with the transport: reply and close, stay
silent, or die on an uncaught Python exception (no write, no close). -/
inductive TaskOutcome
  | replied (text : String)
  | silent
  | pyError (exc : String)
deriving DecidableEq, Repr

/-- CommandProtocol._command_task: on the interactive transport the result is
encoded and written back, so a None result raises AttributeError on
result.encode() before any write or close happens. -/
def _command_task (ctrl : Controller) (cmd : String) (interactive : Bool) :
    TaskOutcome × List RegCall :=
  let r := _interpret_command interactive ctrl cmd
  if interactive then
    match r.result with
    | none => (TaskOutcome.pyError "AttributeError", r.calls)
    | some s => (TaskOutcome.replied s, r.calls)
  else (TaskOutcome.silent, r.calls)

/-! ### SimpleProcess (pt/simple.py) -/

/-- The result of SubProcess.wait(): the exit status object, which may or may
not be an int. -/
inductive WaitResult
  | int (code : ℤ)
  | notInt
deriving DecidableEq, Repr

/-- SimpleProcess._monitor_service: returns the list of _abnormal_exit
invocations it performs (with their exit-code argument). -/
def _monitor_service : WaitResult → List ℤ
  | WaitResult.int code => if 0 < code then [code] else []
  | WaitResult.notInt => []

/-- The monitor-task bookkeeping of one SimpleProcess handle: every monitor
task ever spawned (by id), the cancelled ids, the _fut_monitor reference and
the next fresh task id. -/
structure PState where
  spawned : List ℕ
  cancelled : List ℕ
  fut_monitor : Option ℕ
  nextId : ℕ
deriving DecidableEq, Repr

/-- The opening step of process_started_co: if a monitor reference exists and
that task is not cancelled, cancel it and clear the reference. -/
def cancelPrior (s : PState) : PState :=
  match s.fut_monitor with
  | some t =>
    if t ∉ s.cancelled then
      { s with cancelled := t :: s.cancelled, fut_monitor := none }
    else s
  | none => s

/-- SimpleProcess.process_started_co: cancel a live prior monitor and clear
the reference, run the startup pause and the pidfile wait (their outcomes are
the two booleans; an exception propagates, modelled by a false first
component), then spawn and record the new monitor task. -/
def process_started_co (s : PState) (startup_ok pidfile_ok : Bool) : Bool × PState :=
  let s1 := cancelPrior s
  if startup_ok = false then (false, s1)
  else if pidfile_ok = false then (false, s1)
  else
    (true, { s1 with spawned := s1.spawned ++ [s1.nextId],
                     fut_monitor := some s1.nextId,
                     nextId := s1.nextId + 1 })

/-- A monitor task is active when it was spawned and never cancelled
(completion of the child is irrelevant to the supersession bookkeeping). -/
def isActive (s : PState) (t : ℕ) : Prop := t ∈ s.spawned ∧ t ∉ s.cancelled

/-- Task ids are allocated below the fresh counter. -/
def wfP (s : PState) : Prop :=
  (∀ t ∈ s.spawned, t < s.nextId) ∧ (∀ t ∈ s.cancelled, t < s.nextId) ∧
    ∀ t ∈ s.fut_monitor, t < s.nextId

/-- Every active monitor task is the one the handle references. -/
def monitorInv (s : PState) : Prop :=
  ∀ t ∈ s.spawned, t ∉ s.cancelled → s.fut_monitor = some t

/-! ### Concrete instances used to exercise the theorems -/

/-- A controller whose registry calls all succeed. -/
def ctrlA : Controller :=
  { version := "0.2.1", uptime := "0:01:00", services := [],
    statusTable := "", dependency_graph := [], forcedLogLevel := none,
    regFail := fun _ => none }

/-- A controller whose stop calls raise (an unknown service name downstream). -/
def ctrlFail : Controller :=
  { ctrlA with
    regFail := fun c =>
      match c with
      | RegCall.stop _ _ _ _ => some "No such service"
      | _ => none }

/-! ### Helper lemmas -/

theorem shlexSplit_empty : shlexSplit "" = Except.ok [] := rfl

theorem parsed_nonempty {msg : String} {argv : List String} {opts : Opts}
    (h1 : shlexSplit msg = Except.ok argv) (h2 : docopt argv = Except.ok opts) :
    msg ≠ "" := by
  intro h
  subst h
  rw [shlexSplit_empty] at h1
  injection h1 with h1
  subst h1
  rw [show docopt [] = Except.error usageText from rfl] at h2
  exact Except.noConfusion h2

theorem interpret_parsed_none (i : Bool) (ctrl : Controller) (msg : String)
    (argv : List String) (opts : Opts)
    (h1 : shlexSplit msg = Except.ok argv) (h2 : docopt argv = Except.ok opts)
    (h3 : findCommand i opts = none) :
    _interpret_command i ctrl msg =
      { result := some ("RESULT\n" ++ "?"), calls := [], dispatched := none } := by
  unfold _interpret_command
  rw [if_neg (parsed_nonempty h1 h2)]
  simp only [h1, h2, h3]

theorem interpret_parsed_some (i : Bool) (ctrl : Controller) (msg : String)
    (argv : List String) (opts : Opts) (c : Cmd)
    (h1 : shlexSplit msg = Except.ok argv) (h2 : docopt argv = Except.ok opts)
    (h3 : findCommand i opts = some c) :
    _interpret_command i ctrl msg =
      { result := some ("RESULT\n" ++ (exec c i opts ctrl).1),
        calls := (exec c i opts ctrl).2, dispatched := some c } := by
  unfold _interpret_command
  rw [if_neg (parsed_nonempty h1 h2)]
  simp only [h1, h2, h3]

theorem exec_calls (c : Cmd) (i : Bool) (opts : Opts) (ctrl : Controller) :
    (exec c i opts ctrl).2 = (do_exec c i opts ctrl).2 := rfl

/-! ### C6 -/

/-- C6: the exit watcher calls the abnormal-exit handler, with the exit code
as its argument, exactly when the wait result is an integer strictly greater
than zero; zero, negative or non-integer results never trigger it. -/
theorem monitor_abnormal_iff (r : WaitResult) (code : ℤ) :
    code ∈ _monitor_service r ↔ r = WaitResult.int code ∧ 0 < code := by
  cases r with
  | int c =>
    by_cases hc : 0 < c
    · simp only [_monitor_service, if_pos hc, List.mem_singleton, WaitResult.int.injEq]
      constructor
      · intro h; subst h; exact ⟨rfl, hc⟩
      · intro h; exact h.1.symm
    · simp only [_monitor_service, if_neg hc, List.not_mem_nil, false_iff,
        WaitResult.int.injEq, not_and]
      intro h; subst h; exact hc
  | notInt =>
    simp [_monitor_service]

/-! ### C10 -/

/-- C10: on the interactive transport an empty decoded buffer makes
_interpret_command return None and _command_task then hits result.encode()
on None, an uncaught AttributeError: nothing is written and the connection
is not closed by the task; on the non-interactive path the same input is a
silent no-op. -/
theorem empty_buffer_attribute_error (ctrl : Controller) :
    _command_task ctrl "" true = (TaskOutcome.pyError "AttributeError", []) ∧
    _command_task ctrl "" false = (TaskOutcome.silent, []) :=
  ⟨rfl, rfl⟩

/-! ### C2 -/

/-- C2 counterexample: the input frobnicate tokenizes validly but fails the
docopt pattern match, which raises DocoptExit (a SystemExit), so the result
is a COMMAND-ERROR envelope carrying the usage text, not the RESULT-wrapped
unknown-command marker the claim requires. -/
theorem unknown_verb_counterexample :
    _interpret_command false ctrlA "frobnicate" =
      { result := some ("COMMAND-ERROR\n" ++ usageText), calls := [],
        dispatched := none } ∧
    (_interpret_command false ctrlA "frobnicate").result ≠ some "RESULT\n?" := by
  constructor <;> decide

def verbNames : List String :=
  ["status", "loglevel", "stop", "start", "reset", "enable", "disable",
   "dependencies", "shutdown"]

/-- C2 amended: an input line that tokenizes validly but whose verb (first
positional token) is unknown fails the docopt parse with a usage-style
DocoptExit, so _interpret_command returns the COMMAND-ERROR envelope with the
usage text, dispatching no handler and making no registry call. -/
theorem unknown_verb_command_error (i : Bool) (ctrl : Controller) (msg : String)
    (argv : List String) (toks : List Tok) (verb : String) (rest : List Tok)
    (h1 : shlexSplit msg = Except.ok argv)
    (h2 : parse_argv argv = Except.ok toks)
    (h3 : splitVerb toks = some (verb, rest))
    (h4 : verb ∉ verbNames) :
    _interpret_command i ctrl msg =
      { result := some ("COMMAND-ERROR\n" ++ usageText), calls := [],
        dispatched := none } := by
  simp only [verbNames, List.mem_cons, List.not_mem_nil, or_false, not_or] at h4
  obtain ⟨n1, n2, n3, n4, n5, n6, n7, n8, n9⟩ := h4
  have hm : docoptMatch toks = none := by
    unfold docoptMatch
    simp only [h3]
    simp [n1, n2, n3, n4, n5, n6, n7, n8, n9]
  have hdoc : docopt argv = Except.error usageText := by
    unfold docopt
    simp only [h2, hm]
  have hne : msg ≠ "" := by
    intro h
    subst h
    rw [shlexSplit_empty] at h1
    injection h1 with h1
    subst h1
    rw [show parse_argv [] = Except.ok ([] : List Tok) from rfl] at h2
    injection h2 with h2
    subst h2
    rw [show splitVerb [] = (none : Option (String × List Tok)) from rfl] at h3
    exact Option.noConfusion h3
  unfold _interpret_command
  rw [if_neg hne]
  simp only [h1, hdoc]

/-- C2 amended witness at the concrete input frobnicate. -/
theorem unknown_verb_command_error_witness :
    shlexSplit "frobnicate" = Except.ok ["frobnicate"] ∧
    _interpret_command true ctrlA "frobnicate" =
      { result := some ("COMMAND-ERROR\n" ++ usageText), calls := [],
        dispatched := none } :=
  ⟨rfl,
   unknown_verb_command_error true ctrlA "frobnicate" ["frobnicate"]
     [Tok.arg "frobnicate"] "frobnicate" [] rfl rfl rfl (by decide)⟩

/-! ### C3 -/

/-- C3 counterexample: the single-space line is not the empty string, so it
is tokenized (to zero tokens), fails the docopt parse and produces a
COMMAND-ERROR envelope, contradicting the claim that every whitespace-only
line is a no-op with no result envelope. -/
theorem whitespace_noop_counterexample :
    (_interpret_command false ctrlA " ").result ≠ none ∧
    _interpret_command false ctrlA " " =
      { result := some ("COMMAND-ERROR\n" ++ usageText), calls := [],
        dispatched := none } := by
  constructor <;> decide

theorem shlexRun_ws (cs : List Char) (acc : List String)
    (h : ∀ c ∈ cs, c ∈ shlexWhitespace) :
    shlexRun cs ShState.delim [] acc = Except.ok acc.reverse := by
  induction cs with
  | nil => rfl
  | cons c cs ih =>
    have hc : c ∈ shlexWhitespace := h c (by simp)
    simp only [shlexRun, if_pos hc]
    exact ih (fun x hx => h x (by simp [hx]))

/-- C3 amended: only the literally empty line short-circuits as a no-op; a
non-empty whitespace-only line tokenizes to an empty argument vector, fails
the docopt parse, and yields a COMMAND-ERROR envelope, still with no handler
dispatched and no registry call. -/
theorem empty_vs_whitespace (i : Bool) (ctrl : Controller) (msg : String)
    (hne : msg ≠ "") (hws : ∀ c ∈ msg.data, c ∈ shlexWhitespace) :
    _interpret_command i ctrl "" = { result := none, calls := [], dispatched := none } ∧
    _interpret_command i ctrl msg =
      { result := some ("COMMAND-ERROR\n" ++ usageText), calls := [],
        dispatched := none } := by
  refine ⟨rfl, ?_⟩
  have hs : shlexSplit msg = Except.ok [] := by
    unfold shlexSplit
    simpa using shlexRun_ws msg.data [] hws
  unfold _interpret_command
  rw [if_neg hne]
  simp only [hs]
  rfl

/-- C3 amended witness at the concrete whitespace-only input. -/
theorem empty_vs_whitespace_witness :
    (" " : String) ≠ "" ∧
    _interpret_command true ctrlA " " =
      { result := some ("COMMAND-ERROR\n" ++ usageText), calls := [],
        dispatched := none } :=
  ⟨by decide, (empty_vs_whitespace true ctrlA " " (by decide) (by decide)).2⟩

/-! ### C4 -/

/-- C4: every non-empty input line gets exactly one of the three status-line
envelopes, matching how processing ended: RESULT on a successful parse
(whether or not a handler matched), EXCEPTION when tokenization raised an
ordinary exception, and COMMAND-ERROR when the grammar parse raised the
usage/exit-style DocoptExit. -/
theorem envelope_trichotomy (msg : String) (i : Bool) (ctrl : Controller)
    (hne : msg ≠ "") :
    (∀ e, shlexSplit msg = Except.error e →
      (_interpret_command i ctrl msg).result = some ("EXCEPTION\n" ++ e)) ∧
    (∀ argv e, shlexSplit msg = Except.ok argv → docopt argv = Except.error e →
      (_interpret_command i ctrl msg).result = some ("COMMAND-ERROR\n" ++ e)) ∧
    (∀ argv opts, shlexSplit msg = Except.ok argv → docopt argv = Except.ok opts →
      ∃ body, (_interpret_command i ctrl msg).result = some ("RESULT\n" ++ body)) := by
  refine ⟨?_, ?_, ?_⟩
  · intro e he
    unfold _interpret_command
    rw [if_neg hne]
    simp only [he]
  · intro argv e ha he
    unfold _interpret_command
    rw [if_neg hne]
    simp only [ha, he]
  · intro argv opts ha ho
    rcases hfind : findCommand i opts with _ | c
    · exact ⟨"?", by rw [interpret_parsed_none i ctrl msg argv opts ha ho hfind]⟩
    · exact ⟨(exec c i opts ctrl).1,
        by rw [interpret_parsed_some i ctrl msg argv opts c ha ho hfind]⟩

def msgBadQuote : String := "stat\""

/-- C4 witness at an unclosed-quote input, exercising the EXCEPTION branch. -/
theorem envelope_trichotomy_witness :
    msgBadQuote ≠ "" ∧
    (_interpret_command false ctrlA msgBadQuote).result =
      some ("EXCEPTION\n" ++ "No closing quotation") :=
  ⟨by decide,
   (envelope_trichotomy msgBadQuote false ctrlA (by decide)).1
     "No closing quotation" rfl⟩

/-! ### C1 -/

/-- The wait keyword argument a registry call receives, when it takes one. -/
def waitArg : RegCall → Option Bool
  | RegCall.start _ _ w _ => some w
  | RegCall.stop _ _ w _ => some w
  | RegCall.reset _ _ w => some w
  | _ => none

/-- C1: for every parsed command line, every registry call that takes a wait
argument observes exactly the parsed wait flag AND-ed with the session's
interactive flag, so with the wait flag present the registry sees wait=true
iff the session is interactive, and a non-interactive session always yields
wait=false. -/
theorem wait_forced_noninteractive (msg : String) (i : Bool) (ctrl : Controller)
    (argv : List String) (opts : Opts)
    (h1 : shlexSplit msg = Except.ok argv) (h2 : docopt argv = Except.ok opts)
    (call : RegCall) (hc : call ∈ (_interpret_command i ctrl msg).calls)
    (w : Bool) (hw : waitArg call = some w) :
    w = (opts.wait && i) := by
  rcases hfind : findCommand i opts with _ | c
  · rw [interpret_parsed_none i ctrl msg argv opts h1 h2 hfind] at hc
    simp at hc
  · rw [interpret_parsed_some i ctrl msg argv opts c h1 h2 hfind] at hc
    simp only [exec_calls] at hc
    cases c with
    | serviceStart =>
      simp only [do_exec] at hc
      simp at hc
      subst hc
      simp only [waitArg, Option.some.injEq] at hw
      exact hw.symm
    | serviceStop =>
      simp only [do_exec] at hc
      simp at hc
      subst hc
      simp only [waitArg, Option.some.injEq] at hw
      exact hw.symm
    | serviceReset =>
      simp only [do_exec] at hc
      simp at hc
      subst hc
      simp only [waitArg, Option.some.injEq] at hw
      exact hw.symm
    | serviceEnable =>
      simp only [do_exec] at hc
      simp at hc
      subst hc
      simp [waitArg] at hw
    | serviceDisable =>
      simp only [do_exec] at hc
      simp at hc
      subst hc
      simp [waitArg] at hw
    | statusCommand =>
      simp only [do_exec] at hc
      simp at hc
    | dependenciesCommand =>
      simp only [do_exec] at hc
      simp at hc
    | loglevelCommand =>
      rcases hlev : opts.level with _ | lev
      · rcases hcur : ctrl.forcedLogLevel with _ | cur
        · simp [do_exec, hlev, hcur] at hc
        · rcases hpi : pyIndex PRIORITY cur with _ | nm <;>
            simp [do_exec, hlev, hcur, hpi] at hc
      · simp only [do_exec, hlev] at hc
        simp at hc
        subst hc
        simp [waitArg] at hw
    | shutdownCommand =>
      rcases hdel : opts.delay with _ | d
      · simp only [do_exec, hdel] at hc
        simp at hc
        subst hc
        simp [waitArg] at hw
      · by_cases hn : toLowerAscii d = "now"
        · simp only [do_exec, hdel, if_pos hn] at hc
          simp at hc
          subst hc
          simp [waitArg] at hw
        · rcases hpf : pythonFloat d with _ | v
          · simp [do_exec, hdel, if_neg hn, hpf] at hc
          · simp only [do_exec, hdel, if_neg hn, hpf] at hc
            simp at hc
            subst hc
            simp [waitArg] at hw

/-- C1 witness: start with the wait flag on the non-interactive transport;
the registry call carries wait=false. -/
theorem wait_forced_noninteractive_witness :
    shlexSplit "start --wait svcA" = Except.ok ["start", "--wait", "svcA"] ∧
    RegCall.start ["svcA"] false false false ∈
      (_interpret_command false ctrlA "start --wait svcA").calls ∧
    false = (({ start := true, wait := true, servname := ["svcA"] } : Opts).wait && false) :=
  ⟨rfl, by decide,
   wait_forced_noninteractive "start --wait svcA" false ctrlA
     ["start", "--wait", "svcA"] { start := true, wait := true, servname := ["svcA"] }
     rfl rfl (RegCall.start ["svcA"] false false false) (by decide) false rfl⟩

/-! ### C5 -/

/-- C5: when the dispatched handler's do_exec raises, the exception is caught
at the dispatch boundary and rendered as a Command error message inside a
normal RESULT envelope; the call trace is preserved and the dispatcher still
returns an envelope (nothing escalates to the transport). -/
theorem handler_error_boundary (msg : String) (i : Bool) (ctrl : Controller)
    (argv : List String) (opts : Opts) (c : Cmd) (e : String) (calls : List RegCall)
    (h1 : shlexSplit msg = Except.ok argv) (h2 : docopt argv = Except.ok opts)
    (h3 : findCommand i opts = some c)
    (h4 : do_exec c i opts ctrl = (Except.error e, calls)) :
    _interpret_command i ctrl msg =
      { result := some ("RESULT\n" ++ ("Command error: " ++ e)), calls := calls,
        dispatched := some c } := by
  rw [interpret_parsed_some i ctrl msg argv opts c h1 h2 h3]
  unfold exec
  rw [h4]

/-- C5 witness: a stop whose registry call raises downstream. -/
theorem handler_error_boundary_witness :
    do_exec Cmd.serviceStop false { stop := true, servname := ["badsvc"] } ctrlFail =
      (Except.error "No such service", [RegCall.stop ["badsvc"] false false false]) ∧
    _interpret_command false ctrlFail "stop badsvc" =
      { result := some ("RESULT\n" ++ ("Command error: " ++ "No such service")),
        calls := [RegCall.stop ["badsvc"] false false false],
        dispatched := some Cmd.serviceStop } :=
  ⟨rfl,
   handler_error_boundary "stop badsvc" false ctrlFail ["stop", "badsvc"]
     { stop := true, servname := ["badsvc"] } Cmd.serviceStop "No such service"
     [RegCall.stop ["badsvc"] false false false] rfl rfl rfl rfl⟩

/-! ### C8 -/

theorem docopt_verb_shapes (argv : List String) (opts : Opts)
    (h : docopt argv = Except.ok opts) :
    (opts.status = true → opts = { status := true }) ∧
    (opts.dependencies = true → opts = { dependencies := true }) := by
  unfold docopt at h
  rcases hp : parse_argv argv with e | toks
  · simp only [hp] at h
    exact Except.noConfusion h
  · simp only [hp] at h
    rcases hm : docoptMatch toks with _ | o
    · simp only [hm] at h
      exact Except.noConfusion h
    · simp only [hm] at h
      injection h with h
      subst h
      simp only [docoptMatch] at hm
      repeat' split at hm
      all_goals
        first
        | exact Option.noConfusion hm
        | (injection hm with hm; subst hm;
           constructor <;> intro hh <;> first | rfl | simp at hh)

/-- C8: a line whose parsed verb selects an interactive-only handler (status
or dependencies) dispatches nothing on the non-interactive transport and
yields the unknown-command result instead, while on the interactive transport
that handler executes. -/
theorem interactive_only_gate (msg : String) (ctrl : Controller)
    (argv : List String) (opts : Opts)
    (h1 : shlexSplit msg = Except.ok argv) (h2 : docopt argv = Except.ok opts)
    (h3 : opts.status = true ∨ opts.dependencies = true) :
    _interpret_command false ctrl msg =
      { result := some ("RESULT\n" ++ "?"), calls := [], dispatched := none } ∧
    ∃ c, interactive_only c = true ∧
      _interpret_command true ctrl msg =
        { result := some ("RESULT\n" ++ (exec c true opts ctrl).1),
          calls := [], dispatched := some c } := by
  rcases h3 with hs | hd
  · have hshape := (docopt_verb_shapes argv opts h2).1 hs
    subst hshape
    refine ⟨interpret_parsed_none false ctrl msg argv _ h1 h2 rfl,
            Cmd.statusCommand, rfl, ?_⟩
    rw [interpret_parsed_some true ctrl msg argv _ Cmd.statusCommand h1 h2 rfl]
    rfl
  · have hshape := (docopt_verb_shapes argv opts h2).2 hd
    subst hshape
    refine ⟨interpret_parsed_none false ctrl msg argv _ h1 h2 rfl,
            Cmd.dependenciesCommand, rfl, ?_⟩
    rw [interpret_parsed_some true ctrl msg argv _ Cmd.dependenciesCommand h1 h2 rfl]
    rfl

/-- C8 witness at the concrete status line on both transports. -/
theorem interactive_only_gate_witness :
    shlexSplit "status" = Except.ok ["status"] ∧
    _interpret_command false ctrlA "status" =
      { result := some ("RESULT\n" ++ "?"), calls := [], dispatched := none } :=
  ⟨rfl,
   (interactive_only_gate "status" ctrlA ["status"] { status := true }
     rfl rfl (Or.inl rfl)).1⟩

/-! ### C9 -/

/-- C9: shutdown schedules supervisor termination after 0.1 seconds when the
delay is omitted or equals now case-insensitively; a delay that does not
parse as a decimal number produces a user-visible validation message and
schedules nothing; a parsed delay schedules termination after that value. -/
theorem shutdown_delay_semantics (i : Bool) (opts : Opts) (ctrl : Controller) :
    (opts.delay = none →
      do_exec Cmd.shutdownCommand i opts ctrl =
        (Except.ok "Shutting down now", [RegCall.callLater (PyNum.q (1 / 10))])) ∧
    (∀ d, opts.delay = some d → toLowerAscii d = "now" →
      do_exec Cmd.shutdownCommand i opts ctrl =
        (Except.ok "Shutting down now", [RegCall.callLater (PyNum.q (1 / 10))])) ∧
    (∀ d, opts.delay = some d → toLowerAscii d ≠ "now" → pythonFloat d = none →
      do_exec Cmd.shutdownCommand i opts ctrl =
        (Except.ok ("Specified delay is not a valid decimal number: " ++ d), [])) ∧
    (∀ d v, opts.delay = some d → toLowerAscii d ≠ "now" → pythonFloat d = some v →
      (do_exec Cmd.shutdownCommand i opts ctrl).2 = [RegCall.callLater v]) := by
  refine ⟨?_, ?_, ?_, ?_⟩
  · intro h
    simp [do_exec, h]
  · intro d h hn
    simp [do_exec, h, hn]
  · intro d h hn hf
    simp [do_exec, h, hn, hf]
  · intro d v h hn hf
    simp [do_exec, h, hn, hf]

/-- C9 witness: the shutdown handler on the two delays of the scenario. -/
theorem shutdown_delay_semantics_witness :
    pythonFloat "abc" = none ∧
    do_exec Cmd.shutdownCommand false { shutdown := true, delay := some "abc" } ctrlA =
      (Except.ok ("Specified delay is not a valid decimal number: " ++ "abc"), []) :=
  ⟨rfl,
   (shutdown_delay_semantics false { shutdown := true, delay := some "abc" } ctrlA).2.2.1
     "abc" rfl (by decide) rfl⟩

/-! ### C7 -/

theorem uniq_of_inv {s : PState} (h : monitorInv s) :
    ∀ t u, isActive s t → isActive s u → t = u := by
  intro t u ht hu
  have h1 := h t ht.1 ht.2
  have h2 := h u hu.1 hu.2
  rw [h1] at h2
  exact Option.some.inj h2

theorem cancelPrior_spawned (s : PState) : (cancelPrior s).spawned = s.spawned := by
  rcases hf : s.fut_monitor with _ | t0
  · simp [cancelPrior, hf]
  · by_cases hc : t0 ∈ s.cancelled <;> simp [cancelPrior, hf, hc]

theorem cancelPrior_nextId (s : PState) : (cancelPrior s).nextId = s.nextId := by
  rcases hf : s.fut_monitor with _ | t0
  · simp [cancelPrior, hf]
  · by_cases hc : t0 ∈ s.cancelled <;> simp [cancelPrior, hf, hc]

theorem cancelPrior_wf (s : PState) (hwf : wfP s) : wfP (cancelPrior s) := by
  obtain ⟨h1, h2, h3⟩ := hwf
  rcases hf : s.fut_monitor with _ | t0
  · simp only [cancelPrior, hf]
    exact ⟨h1, h2, h3⟩
  · by_cases hc : t0 ∈ s.cancelled
    · rw [show cancelPrior s = s from by simp [cancelPrior, hf, hc]]
      exact ⟨h1, h2, h3⟩
    · rw [show cancelPrior s = { s with cancelled := t0 :: s.cancelled, fut_monitor := none }
          from by simp [cancelPrior, hf, hc]]
      refine ⟨h1, ?_, ?_⟩
      · intro t ht
        rcases List.mem_cons.mp ht with h | h
        · rw [h]
          exact h3 t0 (Option.mem_def.mpr hf)
        · exact h2 t h
      · intro t ht
        simp [Option.mem_def] at ht

theorem cancelPrior_no_active (s : PState) (hinv : monitorInv s) :
    ∀ t, ¬ isActive (cancelPrior s) t := by
  intro t ht
  rcases hf : s.fut_monitor with _ | t0
  · rw [show cancelPrior s = s from by simp [cancelPrior, hf]] at ht
    have h := hinv t ht.1 ht.2
    rw [hf] at h
    exact Option.noConfusion h
  · by_cases hc : t0 ∈ s.cancelled
    · rw [show cancelPrior s = s from by simp [cancelPrior, hf, hc]] at ht
      have h := hinv t ht.1 ht.2
      rw [hf] at h
      exact ht.2 (Option.some.inj h ▸ hc)
    · rw [show cancelPrior s = { s with cancelled := t0 :: s.cancelled, fut_monitor := none }
          from by simp [cancelPrior, hf, hc]] at ht
      have h1 : t ∉ s.cancelled := fun hx => ht.2 (List.mem_cons_of_mem _ hx)
      have h2 := hinv t ht.1 h1
      rw [hf] at h2
      exact ht.2 (Option.some.inj h2 ▸ List.mem_cons_self t0 s.cancelled)

theorem cancelPrior_cancels (s : PState) (t : ℕ)
    (hf : s.fut_monitor = some t) (hc : t ∉ s.cancelled) :
    t ∈ (cancelPrior s).cancelled := by
  rw [show cancelPrior s = { s with cancelled := t :: s.cancelled, fut_monitor := none }
        from by simp [cancelPrior, hf, hc]]
  exact List.mem_cons_self t s.cancelled

theorem process_fail1 (s : PState) (p : Bool) :
    process_started_co s false p = (false, cancelPrior s) := rfl

theorem process_fail2 (s : PState) :
    process_started_co s true false = (false, cancelPrior s) := rfl

theorem process_succ (s : PState) :
    process_started_co s true true =
      (true, { cancelPrior s with
               spawned := (cancelPrior s).spawned ++ [(cancelPrior s).nextId],
               fut_monitor := some (cancelPrior s).nextId,
               nextId := (cancelPrior s).nextId + 1 }) := rfl

/-- C7: process_started_co cancels any live prior monitor task (clearing the
reference), spawns at most one fresh monitor on success and none on failure,
and preserves the invariant that the referenced task is the only active one,
so no two monitor tasks for the handle are ever concurrently active. -/
theorem monitor_supersession (s : PState) (startup_ok pidfile_ok : Bool)
    (hwf : wfP s) (hinv : monitorInv s) :
    wfP (process_started_co s startup_ok pidfile_ok).2 ∧
    monitorInv (process_started_co s startup_ok pidfile_ok).2 ∧
    (∀ t u, isActive (process_started_co s startup_ok pidfile_ok).2 t →
            isActive (process_started_co s startup_ok pidfile_ok).2 u → t = u) ∧
    (∀ t, s.fut_monitor = some t → t ∉ s.cancelled →
          t ∈ (process_started_co s startup_ok pidfile_ok).2.cancelled) ∧
    ((process_started_co s startup_ok pidfile_ok).1 = true →
      (process_started_co s startup_ok pidfile_ok).2.fut_monitor = some s.nextId ∧
      (process_started_co s startup_ok pidfile_ok).2.spawned = s.spawned ++ [s.nextId] ∧
      isActive (process_started_co s startup_ok pidfile_ok).2 s.nextId) ∧
    ((process_started_co s startup_ok pidfile_ok).1 = false →
      (process_started_co s startup_ok pidfile_ok).2.spawned = s.spawned) := by
  have hs1wf := cancelPrior_wf s hwf
  have hs1na := cancelPrior_no_active s hinv
  have hsp := cancelPrior_spawned s
  have hnx := cancelPrior_nextId s
  have hinvFail : monitorInv (cancelPrior s) := fun t ht hc => absurd ⟨ht, hc⟩ (hs1na t)
  cases startup_ok with
  | false =>
    rw [process_fail1]
    exact ⟨hs1wf, hinvFail, uniq_of_inv hinvFail,
      fun t hf hc => cancelPrior_cancels s t hf hc,
      fun h => Bool.noConfusion h, fun _ => hsp⟩
  | true =>
    cases pidfile_ok with
    | false =>
      rw [process_fail2]
      exact ⟨hs1wf, hinvFail, uniq_of_inv hinvFail,
        fun t hf hc => cancelPrior_cancels s t hf hc,
        fun h => Bool.noConfusion h, fun _ => hsp⟩
    | true =>
      rw [process_succ]
      dsimp only
      have hinv2 : monitorInv
          { cancelPrior s with
            spawned := (cancelPrior s).spawned ++ [(cancelPrior s).nextId],
            fut_monitor := some (cancelPrior s).nextId,
            nextId := (cancelPrior s).nextId + 1 } := by
        intro t ht hc
        rcases List.mem_append.mp ht with h | h
        · exact absurd ⟨h, hc⟩ (hs1na t)
        · rw [List.mem_singleton.mp h]
      refine ⟨⟨?_, ?_, ?_⟩, hinv2, uniq_of_inv hinv2, ?_, ?_, ?_⟩
      · intro t ht
        rcases List.mem_append.mp ht with h | h
        · exact Nat.lt_succ_of_lt (hs1wf.1 t h)
        · rw [List.mem_singleton.mp h]
          exact Nat.lt_succ_self _
      · intro t ht
        exact Nat.lt_succ_of_lt (hs1wf.2.1 t ht)
      · intro t ht
        simp only [Option.mem_def, Option.some.injEq] at ht
        rw [← ht]
        exact Nat.lt_succ_self _
      · exact fun t hf hc => cancelPrior_cancels s t hf hc
      · intro _
        refine ⟨?_, ?_, ?_, ?_⟩
        · show some (cancelPrior s).nextId = some s.nextId
          rw [hnx]
        · show (cancelPrior s).spawned ++ [(cancelPrior s).nextId] = s.spawned ++ [s.nextId]
          rw [hsp, hnx]
        · show s.nextId ∈ (cancelPrior s).spawned ++ [(cancelPrior s).nextId]
          rw [← hnx]
          exact List.mem_append_right _ (List.mem_singleton_self _)
        · intro hx
          have h := hs1wf.2.1 _ hx
          rw [hnx] at h
          exact Nat.lt_irrefl _ h
      · exact fun h => Bool.noConfusion h

/-- A handle with one live monitor task, about to be restarted. -/
def pstate0 : PState :=
  { spawned := [0], cancelled := [], fut_monitor := some 0, nextId := 1 }

/-- C7 witness: restarting the handle cancels the live monitor task 0 and
records the fresh task 1 as the only reference. -/
theorem monitor_supersession_witness :
    wfP pstate0 ∧ monitorInv pstate0 ∧
    0 ∈ (process_started_co pstate0 true true).2.cancelled ∧
    (process_started_co pstate0 true true).2.fut_monitor = some pstate0.nextId :=
  ⟨by unfold wfP pstate0; decide, by unfold monitorInv pstate0; decide,
   (monitor_supersession pstate0 true true (by unfold wfP pstate0; decide)
     (by unfold monitorInv pstate0; decide)).2.2.2.1 0 rfl (by decide),
   ((monitor_supersession pstate0 true true (by unfold wfP pstate0; decide)
     (by unfold monitorInv pstate0; decide)).2.2.2.2.1 rfl).1⟩

end Chaperone
